import Mathlib

/-!
Shallow embedding of `pkg/operator/status.go` from the
cluster-autoscaler-operator repository: the `StatusReporter` data model,
the store-client interactions, the condition synthesizers
(`Available`, `Fail`, `Progressing`), the version comparator
(`IsDifferentVersions`), the dependency health check (`CheckMachineAPI`),
the per-tick poll function from `Report`, and the poll driver.

External collaborators that are not part of the repository's source
(the OpenShift client, the cluster-version-operator `resourcemerge`
helpers, and `wait.PollImmediateUntil`) are modelled from the spec where
noted; everything else is translated directly from `status.go`.
-/

namespace StatusGo

/-- Errors are carried as their message text. -/
abbrev Err := String

/-- `configv1.ConditionStatus`: "True", "False" or "Unknown". -/
inductive ConditionStatus
  | ConditionTrue
  | ConditionFalse
  | ConditionUnknown
deriving DecidableEq, Repr

/-- `configv1.ClusterStatusConditionType`: Available, Progressing, Failing. -/
inductive ClusterStatusConditionType
  | OperatorAvailable
  | OperatorProgressing
  | OperatorFailing
deriving DecidableEq, Repr

open ConditionStatus ClusterStatusConditionType

/-- `configv1.ClusterOperatorStatusCondition`: {Type, Status, Reason, Message}.
The spec's data model for a Condition carries exactly these four fields. -/
structure ClusterOperatorStatusCondition where
  condType : ClusterStatusConditionType
  status : ConditionStatus
  reason : String
  message : String
deriving DecidableEq, Repr

/-- `configv1.OperandVersion`: {Name, Version}. -/
structure OperandVersion where
  name : String
  version : String
deriving DecidableEq, Repr

/-- `configv1.ObjectReference` (opaque related-object reference). -/
structure ObjectReference where
  group : String
  resource : String
  namespc : String
  name : String
deriving DecidableEq, Repr

/-- `configv1.ClusterOperatorStatus`: conditions, versions, relatedObjects. -/
structure ClusterOperatorStatus where
  conditions : List ClusterOperatorStatusCondition
  versions : List OperandVersion
  relatedObjects : List ObjectReference
deriving DecidableEq, Repr

/-- `configv1.ClusterOperator`: a named resource with a status sub-object. -/
structure ClusterOperator where
  name : String
  status : ClusterOperatorStatus
deriving DecidableEq, Repr

/-- The zero-valued `ClusterOperatorStatus` of a freshly constructed object. -/
def emptyStatus : ClusterOperatorStatus :=
  { conditions := [], versions := [], relatedObjects := [] }

/-- Reason messages used in status conditions (source constants). -/
def ReasonEmpty : String := ""

/-- Reason constant `MissingDependency`. -/
def ReasonMissingDependency : String := "MissingDependency"

/-- Reason constant `SyncingResources`. -/
def ReasonSyncing : String := "SyncingResources"

/-- Modelled from the spec: `OperatorName`, the fixed well-known name of the
operator's own status record, is declared elsewhere in the repository
(not in the source file under verification). Its concrete value is
irrelevant to the claims. -/
def OperatorName : String := "cluster-autoscaler"

/-- Modelled from the spec: `version.Raw`, the operator's build version
string from the `pkg/version` package (not in the source file under
verification). Its concrete value is irrelevant to the claims. -/
def versionRaw : String := "0.0.1"

/-- Modelled from the spec: `resourcemerge.SetOperatorStatusCondition`
(vendored cluster-version-operator library). Updates the first condition
of the same type with the new status, reason and message, or appends the
new condition when no condition of that type is present. The spec's
Condition has no timestamp field, so none is modelled. -/
def SetOperatorStatusCondition :
    List ClusterOperatorStatusCondition → ClusterOperatorStatusCondition →
    List ClusterOperatorStatusCondition
  | [], newc => [newc]
  | c :: rest, newc =>
    if c.condType = newc.condType then
      { c with status := newc.status, reason := newc.reason,
               message := newc.message } :: rest
    else
      c :: SetOperatorStatusCondition rest newc

/-- Modelled from the spec: `resourcemerge.IsOperatorStatusConditionPresentAndEqual`
(vendored library). True when the first condition of the given type has
the given status. -/
def IsOperatorStatusConditionPresentAndEqual
    (conditions : List ClusterOperatorStatusCondition)
    (conditionType : ClusterStatusConditionType)
    (status : ConditionStatus) : Bool :=
  match conditions.find? (fun c => c.condType = conditionType) with
  | some c => c.status = status
  | none => false

/-- Modelled from the spec: `resourcemerge.IsOperatorStatusConditionTrue`. -/
def IsOperatorStatusConditionTrue
    (conditions : List ClusterOperatorStatusCondition)
    (conditionType : ClusterStatusConditionType) : Bool :=
  IsOperatorStatusConditionPresentAndEqual conditions conditionType ConditionTrue

/-- Modelled from the spec: `resourcemerge.IsOperatorStatusConditionFalse`. -/
def IsOperatorStatusConditionFalse
    (conditions : List ClusterOperatorStatusCondition)
    (conditionType : ClusterStatusConditionType) : Bool :=
  IsOperatorStatusConditionPresentAndEqual conditions conditionType ConditionFalse

/-- Modelled from the spec: the store's response to a fetch. A not-found
error is distinguished from any other error. -/
inductive KubeResult (α : Type)
  | ok (a : α)
  | notFound
  | otherErr (e : Err)
deriving DecidableEq, Repr

/-- Modelled from the spec: the external store and dependency world seen by
the `StatusReporter`'s client. `ours` is the persisted status record for
`OperatorName` (`none` means the store answers not-found); `oursGetErr`,
`createErr` and `updateErr` inject non-not-found failures of the three
store operations; `machineAPI` is the store's answer for the upstream
dependency's record. `writes` counts `UpdateStatus` calls, and `synth` is
an observational log of every condition payload synthesized by
`ApplyConditions` (ghost state used only to state properties). -/
structure World where
  ours : Option ClusterOperator
  oursGetErr : Option Err
  createErr : Option Err
  updateErr : Option Err
  machineAPI : KubeResult ClusterOperator
  writes : Nat
  synth : List (List ClusterOperatorStatusCondition)
deriving DecidableEq, Repr

/-- Modelled from the spec: `Get(OperatorName)` against the store. -/
def getOwn (w : World) : KubeResult ClusterOperator :=
  match w.oursGetErr with
  | some e => .otherErr e
  | none =>
    match w.ours with
    | some co => .ok co
    | none => .notFound

/-- Modelled from the spec: `Create` persists the given record in the store
and returns it, unless the store's create operation fails. -/
def create (w : World) (co : ClusterOperator) :
    Except Err (ClusterOperator × World) :=
  match w.createErr with
  | some e => .error e
  | none => .ok (co, { w with ours := some co })

/-- Modelled from the spec: `UpdateStatus` overwrites the persisted record
and returns it, unless the store's update operation fails. Each successful
call counts as one write. -/
def updateStatus (w : World) (co : ClusterOperator) :
    Except Err (ClusterOperator × World) :=
  match w.updateErr with
  | some e => .error e
  | none => .ok (co, { w with ours := some co, writes := w.writes + 1 })

/-- `GetOrCreateClusterOperator` (status.go lines 54-69): gets, or if the
get reports not-found, creates the operator's ClusterOperator object and
returns it; any other get error is returned unchanged. -/
def GetOrCreateClusterOperator (w : World) :
    Except Err (ClusterOperator × World) :=
  let clusterOperator : ClusterOperator :=
    { name := OperatorName, status := emptyStatus }
  match getOwn w with
  | .notFound => create w clusterOperator
  | .otherErr e => .error e
  | .ok existing => .ok (existing, w)

/-- `IsDifferentVersions` (status.go lines 71-78): fetches the record and
compares its versions with the desired list by deep equality. -/
def IsDifferentVersions (w : World)
    (desiredVersions : List OperandVersion) : Except Err (Bool × World) :=
  match GetOrCreateClusterOperator w with
  | .error e => .error e
  | .ok (co, w1) =>
    let currentVersions := co.status.versions
    .ok (decide (desiredVersions ≠ currentVersions), w1)

/-- The candidate status built by `ApplyConditions` (status.go lines
83-95): fixed versions entry naming "cluster-autoscaler", the reporter's
related objects, and the given conditions folded into an initially empty
list through `SetOperatorStatusCondition`. -/
def candidateStatus (relatedObjects : List ObjectReference)
    (conds : List ClusterOperatorStatusCondition) : ClusterOperatorStatus :=
  { conditions := conds.foldl SetOperatorStatusCondition []
    versions := [{ name := "cluster-autoscaler", version := versionRaw }]
    relatedObjects := relatedObjects }

/-- The store interaction of `ApplyConditions` (status.go lines 97-107),
factored out: fetch or create the record, then write the candidate status
back only when it differs from the stored status. -/
def applyStatus (status : ClusterOperatorStatus) (w0 : World) :
    Option Err × World :=
  match GetOrCreateClusterOperator w0 with
  | .error e => (some e, w0)
  | .ok (co, w1) =>
    if co.status = status then
      (none, w1)
    else
      match updateStatus w1 { co with status := status } with
      | .error e => (some e, w1)
      | .ok (_, w2) => (none, w2)

/-- `ApplyConditions` (status.go lines 82-108): builds the candidate status,
records the synthesized condition payload in the ghost `synth` log, and
runs the conditional store write. -/
def ApplyConditions (relatedObjects : List ObjectReference) (w : World)
    (conds : List ClusterOperatorStatusCondition) : Option Err × World :=
  applyStatus (candidateStatus relatedObjects conds)
    { w with synth :=
        w.synth ++ [(candidateStatus relatedObjects conds).conditions] }

/-- The condition list passed to `ApplyConditions` by `Available`
(status.go lines 112-131). -/
def availableCondList (reason message : String) :
    List ClusterOperatorStatusCondition :=
  [ { condType := OperatorAvailable, status := ConditionTrue,
      reason := reason, message := message },
    { condType := OperatorProgressing, status := ConditionFalse,
      reason := "", message := "" },
    { condType := OperatorFailing, status := ConditionFalse,
      reason := "", message := "" } ]

/-- `Available` (status.go lines 112-131). -/
def Available (relatedObjects : List ObjectReference) (w : World)
    (reason message : String) : Option Err × World :=
  ApplyConditions relatedObjects w (availableCondList reason message)

/-- The condition list passed to `ApplyConditions` by `Fail`
(status.go lines 135-154). -/
def failCondList (reason message : String) :
    List ClusterOperatorStatusCondition :=
  [ { condType := OperatorAvailable, status := ConditionTrue,
      reason := "", message := "" },
    { condType := OperatorProgressing, status := ConditionFalse,
      reason := "", message := "" },
    { condType := OperatorFailing, status := ConditionTrue,
      reason := reason, message := message } ]

/-- `Fail` (status.go lines 135-154). -/
def Fail (relatedObjects : List ObjectReference) (w : World)
    (reason message : String) : Option Err × World :=
  ApplyConditions relatedObjects w (failCondList reason message)

/-- The condition list passed to `ApplyConditions` by `Progressing`
(status.go lines 158-177). -/
def progressingCondList (reason message : String) :
    List ClusterOperatorStatusCondition :=
  [ { condType := OperatorAvailable, status := ConditionTrue,
      reason := "", message := "" },
    { condType := OperatorProgressing, status := ConditionTrue,
      reason := reason, message := message },
    { condType := OperatorFailing, status := ConditionFalse,
      reason := "", message := "" } ]

/-- `Progressing` (status.go lines 158-177). -/
def Progressing (relatedObjects : List ObjectReference) (w : World)
    (reason message : String) : Option Err × World :=
  ApplyConditions relatedObjects w (progressingCondList reason message)

/-- `CheckMachineAPI` (status.go lines 227-245): fetches the "machine-api"
ClusterOperator; any fetch error (including not-found) is returned as an
error; otherwise reports true iff the Available condition is True and the
Failing condition is False. -/
def CheckMachineAPI (w : World) : Except Err Bool :=
  match w.machineAPI with
  | .otherErr e => .error e
  | .notFound => .error "machine-api not found"
  | .ok mao =>
    let conds := mao.status.conditions
    if IsOperatorStatusConditionTrue conds OperatorAvailable &&
        IsOperatorStatusConditionFalse conds OperatorFailing then
      .ok true
    else
      .ok false

/-- `printOperandVersions` (status.go lines 247-253): accumulates each
operand rendered as "name: version" and joins the pieces with ", ". -/
def printOperandVersions (desiredVersions : List OperandVersion) : String :=
  let versionsOutput := desiredVersions.foldl
    (fun acc operand => acc ++ [operand.name ++ ": " ++ operand.version]) []
  String.intercalate ", " versionsOutput

/-- The desired version list hardcoded inside `Report`'s poll function
(status.go lines 198-203). -/
def desiredVersions : List OperandVersion :=
  [{ name := "operator", version := versionRaw }]

/-- The poll function closed over by `Report` (status.go lines 189-219).
Returns the `(done, error)` pair of the Go `ConditionFunc` together with
the world after the tick's store interactions; the errors returned by the
`Fail`/`Progressing`/`Available` calls are discarded, exactly as the
source discards them. -/
def pollFunc (relatedObjects : List ObjectReference) (w : World) :
    (Bool × Option Err) × World :=
  match CheckMachineAPI w with
  | .error e =>
    ((false, none),
      (Fail relatedObjects w ReasonMissingDependency
        ("error checking machine-api operator status " ++ e)).2)
  | .ok ok =>
    if ok then
      match IsDifferentVersions w desiredVersions with
      | .error e2 =>
        ((false, none),
          (Fail relatedObjects w ReasonEmpty
            ("error checking cluster-autoscaler-operator version " ++ e2)).2)
      | .ok (isProgress, w1) =>
        if isProgress then
          ((false, none),
            (Progressing relatedObjects w1 ReasonSyncing
              ("Syncing to version " ++ printOperandVersions desiredVersions)).2)
        else
          ((true, none), (Available relatedObjects w1 ReasonEmpty "").2)
    else
      ((false, none),
        (Fail relatedObjects w ReasonMissingDependency
          "machine-api operator not ready").2)

/-- Result of the poll driver: terminal success, cooperative cancellation,
or an error returned by a tick. -/
inductive LoopResult
  | success (w : World)
  | cancelled (w : World)
  | failed (e : Err) (w : World)
deriving DecidableEq, Repr

/-- Modelled from the spec: the poll driver `wait.PollImmediateUntil`
(vendored library, not in the source file under verification). The first
tick fires immediately; after each tick the driver returns success if the
tick reported done, returns the tick's error if it reported one, and
otherwise checks the cancellation signal once per iteration, returning a
cancellation outcome; cancellation is not a failure. `stop i` is whether
the cancellation signal is observed asserted at the boundary after tick
`i`; `fuel` bounds the number of ticks examined, with `none` meaning the
loop was still polling after `fuel` ticks. -/
def pollLoop (tick : World → (Bool × Option Err) × World)
    (stop : Nat → Bool) : Nat → Nat → World → Option LoopResult
  | 0, _, _ => none
  | fuel + 1, i, w =>
    match tick w with
    | ((_, some e), w1) => some (.failed e w1)
    | ((done, none), w1) =>
      if done then some (.success w1)
      else if stop i then some (.cancelled w1)
      else pollLoop tick stop fuel (i + 1) w1

/-- Modelled from the spec: the error `Report` surfaces to its caller for
each loop outcome — success and cancellation return without error;
cancellation is not a failure. -/
def loopResultErr : LoopResult → Option Err
  | .success _ => none
  | .cancelled _ => none
  | .failed e _ => some e

/-- `Report` (status.go lines 183-222), driven for `fuel` ticks: polls
`pollFunc` until done or cancellation. -/
def Report (relatedObjects : List ObjectReference) (stop : Nat → Bool)
    (fuel : Nat) (w : World) : Option LoopResult :=
  pollLoop (pollFunc relatedObjects) stop fuel 0 w

/-! ## Sample data used by witness statements -/

/-- A store world with no record, no injected errors, and an absent
dependency record. -/
def baseWorld : World :=
  { ours := none, oursGetErr := none, createErr := none, updateErr := none,
    machineAPI := .notFound, writes := 0, synth := [] }

/-- A machine-api ClusterOperator reporting Available=True, Failing=False. -/
def healthyMAO : ClusterOperator :=
  { name := "machine-api"
    status :=
      { conditions :=
          [ { condType := OperatorAvailable, status := ConditionTrue,
              reason := "", message := "" },
            { condType := OperatorFailing, status := ConditionFalse,
              reason := "", message := "" } ]
        versions := []
        relatedObjects := [] } }

/-- A stored operator record whose versions already match the desired
list. -/
def syncedCO : ClusterOperator :=
  { name := OperatorName
    status := { conditions := [], versions := desiredVersions,
                relatedObjects := [] } }

/-- A world with a synced stored record and a healthy dependency. -/
def syncedWorld : World :=
  { ours := some syncedCO, oursGetErr := none, createErr := none,
    updateErr := none, machineAPI := .ok healthyMAO, writes := 0, synth := [] }

/-- A stored operator record whose versions differ from the desired list. -/
def driftCO : ClusterOperator :=
  { name := OperatorName
    status := { conditions := [], versions := [], relatedObjects := [] } }

/-- A world with a drifted stored record and a healthy dependency. -/
def driftWorld : World := { syncedWorld with ours := some driftCO }

/-- A world whose dependency fetch fails with a non-not-found error. -/
def depErrWorld : World :=
  { baseWorld with machineAPI := KubeResult.otherErr "boom" }

/-- A world whose dependency record is fetched and healthy. -/
def depHealthyWorld : World :=
  { baseWorld with machineAPI := KubeResult.ok healthyMAO }

/-- A world whose own-record fetch fails with a non-not-found error. -/
def getErrWorld : World := { baseWorld with oursGetErr := some "denied" }

/-! ## Helper lemmas -/

theorem foldl_availableCondList (r m : String) :
    (availableCondList r m).foldl SetOperatorStatusCondition [] =
      availableCondList r m := rfl

theorem foldl_failCondList (r m : String) :
    (failCondList r m).foldl SetOperatorStatusCondition [] =
      failCondList r m := rfl

theorem foldl_progressingCondList (r m : String) :
    (progressingCondList r m).foldl SetOperatorStatusCondition [] =
      progressingCondList r m := rfl

theorem foldl_append_singleton {α β : Type} (f : α → β) (l : List α)
    (acc : List β) :
    l.foldl (fun a x => a ++ [f x]) acc = acc ++ l.map f := by
  induction l generalizing acc with
  | nil => simp
  | cons x xs ih => simp [ih]

/-- `printOperandVersions` renders the operands in input order. -/
theorem printOperandVersions_map (l : List OperandVersion) :
    printOperandVersions l =
      String.intercalate ", "
        (l.map (fun o => o.name ++ ": " ++ o.version)) := by
  unfold printOperandVersions
  rw [foldl_append_singleton]
  rfl

/-- A successful `GetOrCreateClusterOperator` leaves every world field
except `ours` unchanged, stores the returned record, and implies the get
did not fail. -/
theorem getOrCreate_ok (w : World) (co : ClusterOperator) (w1 : World)
    (h : GetOrCreateClusterOperator w = .ok (co, w1)) :
    w1.ours = some co ∧ w1.oursGetErr = w.oursGetErr ∧
    w1.createErr = w.createErr ∧ w1.updateErr = w.updateErr ∧
    w1.machineAPI = w.machineAPI ∧ w1.writes = w.writes ∧
    w1.synth = w.synth ∧ w.oursGetErr = none := by
  unfold GetOrCreateClusterOperator getOwn create at h
  rcases hge : w.oursGetErr with _ | e <;> rw [hge] at h
  · rcases ho : w.ours with _ | co' <;> rw [ho] at h
    · rcases hc : w.createErr with _ | e <;> rw [hc] at h
      · cases h
        simp [ho]
      · cases h
    · cases h
      simp [ho, hge]
  · cases h

/-- `applyStatus` never changes the ghost log. -/
theorem applyStatus_synth (status : ClusterOperatorStatus) (w0 : World) :
    ((applyStatus status w0).2).synth = w0.synth := by
  unfold applyStatus
  rcases hg : GetOrCreateClusterOperator w0 with e | ⟨co, w1⟩
  · rfl
  · obtain ⟨-, -, -, -, -, -, hsyn, -⟩ := getOrCreate_ok w0 co w1 hg
    simp only
    split
    · exact hsyn
    · unfold updateStatus
      rcases hu : w1.updateErr with _ | e <;> simp [hu, hsyn]

/-- `ApplyConditions` always appends exactly the synthesized payload to the
ghost log, regardless of store outcomes. -/
theorem ApplyConditions_synth (ro : List ObjectReference) (w : World)
    (conds : List ClusterOperatorStatusCondition) :
    ((ApplyConditions ro w conds).2).synth =
      w.synth ++ [(candidateStatus ro conds).conditions] := by
  unfold ApplyConditions
  rw [applyStatus_synth]

/-- `applyStatus` when the fetch-or-create itself fails. -/
theorem applyStatus_getErr (status : ClusterOperatorStatus) (w0 : World)
    (e : Err) (hg : GetOrCreateClusterOperator w0 = .error e) :
    applyStatus status w0 = (some e, w0) := by
  unfold applyStatus
  rw [hg]

/-- `applyStatus` when the stored status already equals the candidate:
the write is suppressed. -/
theorem applyStatus_equal (status : ClusterOperatorStatus) (w0 wa : World)
    (co : ClusterOperator) (hg : GetOrCreateClusterOperator w0 = .ok (co, wa))
    (hs : co.status = status) :
    applyStatus status w0 = (none, wa) := by
  unfold applyStatus
  rw [hg]
  simp [hs]

/-- `applyStatus` when the statuses differ and the update succeeds. -/
theorem applyStatus_update (status : ClusterOperatorStatus) (w0 wa : World)
    (co : ClusterOperator) (hg : GetOrCreateClusterOperator w0 = .ok (co, wa))
    (hs : co.status ≠ status) (hu : wa.updateErr = none) :
    applyStatus status w0 =
      (none, { wa with ours := some { co with status := status },
                       writes := wa.writes + 1 }) := by
  unfold applyStatus updateStatus
  rw [hg]
  simp [hs, hu]

/-- `applyStatus` when the statuses differ and the update fails. -/
theorem applyStatus_updateErr (status : ClusterOperatorStatus) (w0 wa : World)
    (co : ClusterOperator) (e : Err)
    (hg : GetOrCreateClusterOperator w0 = .ok (co, wa))
    (hs : co.status ≠ status) (hu : wa.updateErr = some e) :
    applyStatus status w0 = (some e, wa) := by
  unfold applyStatus updateStatus
  rw [hg]
  simp [hs, hu]

/-- After a successful `applyStatus`, the stored record's status is exactly
the candidate status, the injected error fields are unchanged (and the get
error absent), and at most one additional write happened. -/
theorem applyStatus_ok (status : ClusterOperatorStatus) (w0 w1 : World)
    (h : applyStatus status w0 = (none, w1)) :
    (∃ co, w1.ours = some co ∧ co.status = status) ∧
    w1.oursGetErr = none ∧ w1.createErr = w0.createErr ∧
    w1.updateErr = w0.updateErr ∧ w1.machineAPI = w0.machineAPI ∧
    w1.synth = w0.synth ∧
    w0.writes ≤ w1.writes ∧ w1.writes ≤ w0.writes + 1 := by
  rcases hg : GetOrCreateClusterOperator w0 with e | ⟨co, wa⟩
  · rw [applyStatus_getErr status w0 e hg] at h
    cases h
  · obtain ⟨hours, hge, hce, hue, hma, hwr, hsyn, hge0⟩ :=
      getOrCreate_ok w0 co wa hg
    by_cases hs : co.status = status
    · rw [applyStatus_equal status w0 wa co hg hs] at h
      obtain ⟨-, rfl⟩ := Prod.mk.injEq .. ▸ h
      exact ⟨⟨co, hours, hs⟩, hge.trans hge0, hce, hue, hma, hsyn,
        le_of_eq hwr.symm, by omega⟩
    · rcases hu : wa.updateErr with _ | e
      · rw [applyStatus_update status w0 wa co hg hs hu] at h
        obtain ⟨-, rfl⟩ := Prod.mk.injEq .. ▸ h
        exact ⟨⟨{ co with status := status }, rfl, rfl⟩, hge.trans hge0, hce,
          hue, hma, hsyn, by dsimp only; omega, by dsimp only; omega⟩
      · rw [applyStatus_updateErr status w0 wa co e hg hs hu] at h
        cases h

/-- On a world whose stored record's status already equals the candidate,
`applyStatus` suppresses the write and changes nothing. -/
theorem applyStatus_noop (status : ClusterOperatorStatus) (w : World)
    (co : ClusterOperator) (hge : w.oursGetErr = none)
    (ho : w.ours = some co) (hs : co.status = status) :
    applyStatus status w = (none, w) := by
  unfold applyStatus GetOrCreateClusterOperator getOwn
  rw [hge, ho]
  simp [hs]

/-- The per-tick poll function never returns an error (every return site in
the source returns a nil error). -/
theorem pollFunc_err_none (ro : List ObjectReference) (w : World) :
    (pollFunc ro w).1.2 = none := by
  unfold pollFunc
  rcases CheckMachineAPI w with e | b
  · rfl
  · rcases b with _ | _
    · rfl
    · rcases IsDifferentVersions w desiredVersions with e2 | ⟨p, w1⟩
      · rfl
      · rcases p with _ | _ <;> rfl

/-- Fetching when a record is stored and the get does not fail returns the
stored record unchanged. -/
theorem getOrCreate_found (w : World) (co : ClusterOperator)
    (hge : w.oursGetErr = none) (ho : w.ours = some co) :
    GetOrCreateClusterOperator w = .ok (co, w) := by
  unfold GetOrCreateClusterOperator getOwn
  rw [hge, ho]

/-- `IsDifferentVersions` on a stored record compares the desired list with
the stored versions by structural equality. -/
theorem isDifferentVersions_found (w : World) (co : ClusterOperator)
    (desired : List OperandVersion) (hge : w.oursGetErr = none)
    (ho : w.ours = some co) :
    IsDifferentVersions w desired =
      .ok (decide (desired ≠ co.status.versions), w) := by
  unfold IsDifferentVersions
  rw [getOrCreate_found w co hge ho]

/-- One step of the poll driver when the tick reports no error. -/
theorem pollLoop_succ_none (tick : World → (Bool × Option Err) × World)
    (stop : Nat → Bool) (fuel i : Nat) (w : World) (done : Bool) (w1 : World)
    (ht : tick w = ((done, none), w1)) :
    pollLoop tick stop (fuel + 1) i w =
      if done then some (.success w1)
      else if stop i then some (.cancelled w1)
      else pollLoop tick stop fuel (i + 1) w1 := by
  conv_lhs => unfold pollLoop
  rw [ht]

/-- A driver over a tick that never errors can never produce a `failed`
outcome. -/
theorem pollLoop_no_failed (tick : World → (Bool × Option Err) × World)
    (htick : ∀ w, (tick w).1.2 = none) (stop : Nat → Bool) :
    ∀ (fuel i : Nat) (w : World) (r : LoopResult),
      pollLoop tick stop fuel i w = some r → loopResultErr r = none := by
  intro fuel
  induction fuel with
  | zero =>
    intro i w r h
    exact absurd h (by simp [pollLoop])
  | succ f ih =>
    intro i w r h
    rcases ht : tick w with ⟨⟨d, e⟩, w1⟩
    have he : e = none := by
      have h2 := htick w
      rw [ht] at h2
      exact h2
    subst he
    rw [pollLoop_succ_none tick stop f i w d w1 ht] at h
    split at h
    · cases h
      rfl
    · split at h
      · cases h
        rfl
      · exact ih (i + 1) w1 r h

/-- The tick branch when the dependency check errors
(status.go lines 190-194). -/
theorem pollFunc_checkErr (ro : List ObjectReference) (w : World) (e : Err)
    (h : CheckMachineAPI w = .error e) :
    pollFunc ro w = ((false, none),
      (Fail ro w ReasonMissingDependency
        ("error checking machine-api operator status " ++ e)).2) := by
  unfold pollFunc
  rw [h]

/-- The tick branch when the dependency is fetched but unhealthy
(status.go lines 217-218). -/
theorem pollFunc_notReady (ro : List ObjectReference) (w : World)
    (h : CheckMachineAPI w = .ok false) :
    pollFunc ro w = ((false, none),
      (Fail ro w ReasonMissingDependency "machine-api operator not ready").2) := by
  unfold pollFunc
  rw [h]
  rfl

/-- The tick branch when the dependency is healthy but the version check
errors (status.go lines 205-208). -/
theorem pollFunc_versionErr (ro : List ObjectReference) (w : World) (e2 : Err)
    (hm : CheckMachineAPI w = .ok true)
    (hd : IsDifferentVersions w desiredVersions = .error e2) :
    pollFunc ro w = ((false, none),
      (Fail ro w ReasonEmpty
        ("error checking cluster-autoscaler-operator version " ++ e2)).2) := by
  unfold pollFunc
  rw [hm, hd]
  rfl

/-- The tick branch when the dependency is healthy and versions differ
(status.go lines 209-212). -/
theorem pollFunc_healthy_progress (ro : List ObjectReference) (w w1 : World)
    (hm : CheckMachineAPI w = .ok true)
    (hd : IsDifferentVersions w desiredVersions = .ok (true, w1)) :
    pollFunc ro w = ((false, none),
      (Progressing ro w1 ReasonSyncing
        ("Syncing to version " ++ printOperandVersions desiredVersions)).2) := by
  unfold pollFunc
  rw [hm, hd]
  rfl

/-- The tick branch when the dependency is healthy and versions match
(status.go lines 213-214). -/
theorem pollFunc_healthy_same (ro : List ObjectReference) (w w1 : World)
    (hm : CheckMachineAPI w = .ok true)
    (hd : IsDifferentVersions w desiredVersions = .ok (false, w1)) :
    pollFunc ro w = ((true, none), (Available ro w1 ReasonEmpty "").2) := by
  unfold pollFunc
  rw [hm, hd]
  rfl

/-- On condition lists with at most one condition per type — the spec's
data-model invariant — the first-match helper agrees with plain
existential presence. -/
theorem presentAndEqual_iff (t : ClusterStatusConditionType)
    (s : ConditionStatus) :
    ∀ conds : List ClusterOperatorStatusCondition,
      conds.Pairwise (fun a b => a.condType ≠ b.condType) →
      (IsOperatorStatusConditionPresentAndEqual conds t s = true ↔
        ∃ c ∈ conds, c.condType = t ∧ c.status = s)
  | [], _ => by simp [IsOperatorStatusConditionPresentAndEqual]
  | c :: rest, hnd => by
    rw [List.pairwise_cons] at hnd
    obtain ⟨hhead, htail⟩ := hnd
    have ihr := presentAndEqual_iff t s rest htail
    unfold IsOperatorStatusConditionPresentAndEqual at ihr ⊢
    by_cases hct : c.condType = t
    · rw [@List.find?_cons_of_pos _ (fun x => decide (x.condType = t)) c rest
        (decide_eq_true hct)]
      constructor
      · intro hs
        exact ⟨c, List.mem_cons_self c rest, hct, of_decide_eq_true hs⟩
      · rintro ⟨x, hx, hxt, hxs⟩
        rcases List.mem_cons.mp hx with rfl | hxrest
        · exact decide_eq_true hxs
        · exact absurd (hct.trans hxt.symm) (hhead x hxrest)
    · rw [@List.find?_cons_of_neg _ (fun x => decide (x.condType = t)) c rest
        (fun hpc => hct (of_decide_eq_true hpc))]
      rw [ihr]
      constructor
      · rintro ⟨x, hx, hxt, hxs⟩
        exact ⟨x, List.mem_cons_of_mem c hx, hxt, hxs⟩
      · rintro ⟨x, hx, hxt, hxs⟩
        rcases List.mem_cons.mp hx with rfl | hxrest
        · exact absurd hxt hct
        · exact ⟨x, hxrest, hxt, hxs⟩

/-- A healthy tick over a drifted stored record reports not-done and
synthesizes the Progressing payload. -/
theorem pollFunc_drift (ro : List ObjectReference) (w : World)
    (co : ClusterOperator) (hm : CheckMachineAPI w = Except.ok true)
    (hge : w.oursGetErr = none) (ho : w.ours = some co)
    (hv : co.status.versions ≠ desiredVersions) :
    (pollFunc ro w).1 = (false, none) ∧
    ((pollFunc ro w).2).synth = w.synth ++
      [progressingCondList ReasonSyncing
        ("Syncing to version " ++ printOperandVersions desiredVersions)] := by
  have hd : IsDifferentVersions w desiredVersions = .ok (true, w) := by
    rw [isDifferentVersions_found w co desiredVersions hge ho]
    rw [decide_eq_true (Ne.symm hv)]
  rw [pollFunc_healthy_progress ro w w hm hd]
  refine ⟨rfl, ?_⟩
  unfold Progressing
  rw [ApplyConditions_synth]
  rfl

/-! ## Claim theorems -/

/-- C1: If the cancellation signal (stopCh) is asserted before the poll
loop has reached the Available terminal state, `Report` returns without
error — a cancelled run has no error, and no run of the driver over the
real tick can surface an error at all. -/
theorem Report_cancellation_without_error (ro : List ObjectReference)
    (stop : Nat → Bool) (fuel : Nat) (w : World) :
    (∀ r, Report ro stop fuel w = some r → loopResultErr r = none) ∧
    (stop 0 = true → 0 < fuel →
      ∃ w1, Report ro stop fuel w = some (LoopResult.success w1) ∨
        Report ro stop fuel w = some (LoopResult.cancelled w1)) := by
  constructor
  · intro r h
    exact pollLoop_no_failed (pollFunc ro) (pollFunc_err_none ro) stop fuel 0
      w r h
  · intro h0 hf
    obtain ⟨f, rfl⟩ : ∃ f, fuel = f + 1 := ⟨fuel - 1, by omega⟩
    rcases ht : pollFunc ro w with ⟨⟨d, e⟩, w1⟩
    have he : e = none := by
      have h2 := pollFunc_err_none ro w
      rw [ht] at h2
      exact h2
    subst he
    unfold Report
    rw [pollLoop_succ_none (pollFunc ro) stop f 0 w d w1 ht]
    cases d
    · exact ⟨w1, Or.inr (by simp [h0])⟩
    · exact ⟨w1, Or.inl (by simp)⟩

/-- Witness for C1 at a concrete cancelled run. -/
theorem Report_cancellation_without_error_witness :
    loopResultErr (LoopResult.cancelled ((pollFunc [] baseWorld).2)) = none :=
  (Report_cancellation_without_error [] (fun _ => true) 1 baseWorld).1
    (LoopResult.cancelled ((pollFunc [] baseWorld).2)) (by decide)

/-- C2: On a tick where the dependency health check errors, the tick
returns not-done with a nil error, and the synthesized payload is the
Fail set whose Failing condition carries reason MissingDependency and the
error text in its message. -/
theorem tick_dependency_error_failing (ro : List ObjectReference)
    (w : World) (e : Err) (h : CheckMachineAPI w = Except.error e) :
    (pollFunc ro w).1 = (false, none) ∧
    ((pollFunc ro w).2).synth = w.synth ++
      [failCondList ReasonMissingDependency
        ("error checking machine-api operator status " ++ e)] ∧
    (failCondList ReasonMissingDependency
        ("error checking machine-api operator status " ++ e)).find?
        (fun c => c.condType = OperatorFailing) =
      some { condType := OperatorFailing, status := ConditionTrue,
             reason := ReasonMissingDependency,
             message := "error checking machine-api operator status " ++ e } := by
  rw [pollFunc_checkErr ro w e h]
  refine ⟨rfl, ?_, rfl⟩
  unfold Fail
  rw [ApplyConditions_synth]
  rfl

/-- Witness for C2 at a concrete dependency fetch error. -/
theorem tick_dependency_error_failing_witness :
    (pollFunc [] depErrWorld).1 = (false, none) :=
  (tick_dependency_error_failing [] depErrWorld "boom" rfl).1

/-- C3: The dependency health check errors on any fetch failure (including
not-found), never errors on a fetched resource, and — on condition lists
obeying the one-condition-per-type data-model invariant — returns true
iff an Available condition with Status=True and a Failing condition with
Status=False are both present. -/
theorem CheckMachineAPI_spec (w : World) :
    (w.machineAPI = KubeResult.notFound →
      ∃ e, CheckMachineAPI w = Except.error e) ∧
    (∀ e, w.machineAPI = KubeResult.otherErr e →
      CheckMachineAPI w = Except.error e) ∧
    (∀ mao, w.machineAPI = KubeResult.ok mao →
      (CheckMachineAPI w = Except.ok true ∨
        CheckMachineAPI w = Except.ok false) ∧
      (mao.status.conditions.Pairwise (fun a b => a.condType ≠ b.condType) →
        (CheckMachineAPI w = Except.ok true ↔
          (∃ c ∈ mao.status.conditions,
            c.condType = OperatorAvailable ∧ c.status = ConditionTrue) ∧
          (∃ c ∈ mao.status.conditions,
            c.condType = OperatorFailing ∧ c.status = ConditionFalse)))) := by
  refine ⟨?_, ?_, ?_⟩
  · intro h
    refine ⟨"machine-api not found", ?_⟩
    unfold CheckMachineAPI
    rw [h]
  · intro e h
    unfold CheckMachineAPI
    rw [h]
  · intro mao h
    have hck : CheckMachineAPI w = Except.ok
        (IsOperatorStatusConditionTrue mao.status.conditions OperatorAvailable
          && IsOperatorStatusConditionFalse mao.status.conditions
              OperatorFailing) := by
      unfold CheckMachineAPI
      rw [h]
      cases hb : (IsOperatorStatusConditionTrue mao.status.conditions
          OperatorAvailable &&
        IsOperatorStatusConditionFalse mao.status.conditions OperatorFailing)
      · simp [hb]
      · simp [hb]
    constructor
    · rw [hck]
      cases hb : (IsOperatorStatusConditionTrue mao.status.conditions
          OperatorAvailable &&
        IsOperatorStatusConditionFalse mao.status.conditions OperatorFailing)
      · exact Or.inr rfl
      · exact Or.inl rfl
    · intro hnd
      rw [hck]
      unfold IsOperatorStatusConditionTrue IsOperatorStatusConditionFalse
      simp only [Except.ok.injEq]
      rw [Bool.and_eq_true]
      rw [presentAndEqual_iff OperatorAvailable ConditionTrue
        mao.status.conditions hnd]
      rw [presentAndEqual_iff OperatorFailing ConditionFalse
        mao.status.conditions hnd]

/-- Witness for C3 at a concrete fetch error and a concrete healthy
resource. -/
theorem CheckMachineAPI_spec_witness :
    CheckMachineAPI depErrWorld = Except.error "boom" ∧
    (CheckMachineAPI depHealthyWorld = Except.ok true ∨
      CheckMachineAPI depHealthyWorld = Except.ok false) :=
  ⟨(CheckMachineAPI_spec depErrWorld).2.1 "boom" rfl,
   ((CheckMachineAPI_spec depHealthyWorld).2.2 healthyMAO rfl).1⟩

/-- C4: The version comparator returns differs = NOT(order-sensitive
structural deep equality): false exactly when the desired list equals the
stored versions list, true exactly for any difference. -/
theorem IsDifferentVersions_not_deepEqual (w : World) (co : ClusterOperator)
    (desired : List OperandVersion) (hge : w.oursGetErr = none)
    (ho : w.ours = some co) :
    IsDifferentVersions w desired =
      Except.ok (decide (desired ≠ co.status.versions), w) ∧
    (decide (desired ≠ co.status.versions) = false ↔
      desired = co.status.versions) ∧
    (decide (desired ≠ co.status.versions) = true ↔
      desired ≠ co.status.versions) :=
  ⟨isDifferentVersions_found w co desired hge ho, by simp, by simp⟩

/-- Witness for C4 at a concrete synced record. -/
theorem IsDifferentVersions_not_deepEqual_witness :
    IsDifferentVersions syncedWorld desiredVersions =
      Except.ok (decide (desiredVersions ≠ syncedCO.status.versions),
        syncedWorld) :=
  (IsDifferentVersions_not_deepEqual syncedWorld syncedCO desiredVersions
    rfl rfl).1

/-- C5: `ApplyConditions` never writes when the candidate status is
deep-equal to the stored status; applying the same condition set twice
performs at most one write (the second application is a no-op). -/
theorem ApplyConditions_idempotent (ro : List ObjectReference) (w w1 : World)
    (conds : List ClusterOperatorStatusCondition) :
    (∀ co, w.oursGetErr = none → w.ours = some co →
      co.status = candidateStatus ro conds →
      (ApplyConditions ro w conds).1 = none ∧
      ((ApplyConditions ro w conds).2).writes = w.writes) ∧
    (ApplyConditions ro w conds = (none, w1) →
      (ApplyConditions ro w1 conds).1 = none ∧
      ((ApplyConditions ro w1 conds).2).writes = w1.writes ∧
      w1.writes ≤ w.writes + 1) := by
  constructor
  · intro co hge ho hs
    have hnoop := applyStatus_noop (candidateStatus ro conds)
      { w with synth := w.synth ++ [(candidateStatus ro conds).conditions] }
      co hge ho hs
    unfold ApplyConditions
    rw [hnoop]
    exact ⟨rfl, rfl⟩
  · intro h
    have h' : applyStatus (candidateStatus ro conds)
        { w with synth := w.synth ++ [(candidateStatus ro conds).conditions] } =
        (none, w1) := h
    obtain ⟨⟨co, hco, hcs⟩, hge1, -, -, -, -, -, hwle⟩ :=
      applyStatus_ok _ _ _ h'
    have hnoop := applyStatus_noop (candidateStatus ro conds)
      { w1 with synth := w1.synth ++ [(candidateStatus ro conds).conditions] }
      co hge1 hco hcs
    unfold ApplyConditions
    rw [hnoop]
    exact ⟨rfl, rfl, hwle⟩

/-- Witness for C5: a concrete first application out of an empty store,
followed by a second application of the same condition set. -/
theorem ApplyConditions_idempotent_witness :
    (ApplyConditions []
      ((ApplyConditions [] baseWorld (failCondList "r" "m")).2)
      (failCondList "r" "m")).1 = none ∧
    ((ApplyConditions []
      ((ApplyConditions [] baseWorld (failCondList "r" "m")).2)
      (failCondList "r" "m")).2).writes =
      ((ApplyConditions [] baseWorld (failCondList "r" "m")).2).writes ∧
    ((ApplyConditions [] baseWorld (failCondList "r" "m")).2).writes ≤
      baseWorld.writes + 1 :=
  (ApplyConditions_idempotent [] baseWorld
    ((ApplyConditions [] baseWorld (failCondList "r" "m")).2)
    (failCondList "r" "m")).2 (by decide)

/-- C6: On a tick with a healthy dependency and equal version lists,
exactly the condition set {Available: True with empty reason,
Progressing: False, Failing: False} is synthesized, the tick reports
done, and the poll driver terminates with success. -/
theorem tick_available_terminates (ro : List ObjectReference) (w : World)
    (co : ClusterOperator) (hm : CheckMachineAPI w = Except.ok true)
    (hge : w.oursGetErr = none) (ho : w.ours = some co)
    (hv : co.status.versions = desiredVersions) :
    (pollFunc ro w).1 = (true, none) ∧
    ((pollFunc ro w).2).synth = w.synth ++
      [[ { condType := OperatorAvailable, status := ConditionTrue,
           reason := "", message := "" },
         { condType := OperatorProgressing, status := ConditionFalse,
           reason := "", message := "" },
         { condType := OperatorFailing, status := ConditionFalse,
           reason := "", message := "" } ]] ∧
    ∀ stop fuel i, pollLoop (pollFunc ro) stop (fuel + 1) i w =
      some (LoopResult.success ((pollFunc ro w).2)) := by
  have hd : IsDifferentVersions w desiredVersions = .ok (false, w) := by
    rw [isDifferentVersions_found w co desiredVersions hge ho]
    rw [decide_eq_false (fun hne => hne hv.symm)]
  have hpf := pollFunc_healthy_same ro w w hm hd
  rw [hpf]
  refine ⟨rfl, ?_, ?_⟩
  · unfold Available
    rw [ApplyConditions_synth]
    rfl
  · intro stop fuel i
    rw [pollLoop_succ_none (pollFunc ro) stop fuel i w true _ hpf]
    simp

/-- Witness for C6 at a concrete synced, healthy world. -/
theorem tick_available_terminates_witness :
    (pollFunc [] syncedWorld).1 = (true, none) :=
  (tick_available_terminates [] syncedWorld syncedCO rfl rfl rfl rfl).1

/-- C7: On a tick with a healthy dependency and differing version lists,
the Progressing payload with reason SyncingResources is synthesized, its
message renders every desired operand as "name: version" joined by ", "
in input order, and the tick reports not-done. -/
theorem tick_progressing_continues (ro : List ObjectReference) (w : World)
    (co : ClusterOperator) (hm : CheckMachineAPI w = Except.ok true)
    (hge : w.oursGetErr = none) (ho : w.ours = some co)
    (hv : co.status.versions ≠ desiredVersions) :
    (pollFunc ro w).1 = (false, none) ∧
    ((pollFunc ro w).2).synth = w.synth ++
      [progressingCondList ReasonSyncing
        ("Syncing to version " ++ String.intercalate ", "
          (desiredVersions.map (fun o => o.name ++ ": " ++ o.version)))] ∧
    ∀ reason message,
      (progressingCondList reason message).find?
        (fun c => c.condType = OperatorProgressing) =
      some { condType := OperatorProgressing, status := ConditionTrue,
             reason := reason, message := message } := by
  obtain ⟨h1, h2⟩ := pollFunc_drift ro w co hm hge ho hv
  refine ⟨h1, ?_, fun reason message => rfl⟩
  rw [← printOperandVersions_map]
  exact h2

/-- Witness for C7 at a concrete drifted, healthy world. -/
theorem tick_progressing_continues_witness :
    (pollFunc [] driftWorld).1 = (false, none) :=
  (tick_progressing_continues [] driftWorld driftCO rfl rfl rfl
    (by decide)).1

/-- C8: The get-or-create operation fetches the record by the fixed name;
on a not-found answer it creates an empty record with that name and
returns it; any other fetch error is returned unchanged. -/
theorem GetOrCreateClusterOperator_spec (w : World) :
    (∀ e, w.oursGetErr = some e →
      GetOrCreateClusterOperator w = Except.error e) ∧
    (∀ co, w.oursGetErr = none → w.ours = some co →
      GetOrCreateClusterOperator w = Except.ok (co, w)) ∧
    (w.oursGetErr = none → w.ours = none → w.createErr = none →
      GetOrCreateClusterOperator w = Except.ok
        ({ name := OperatorName, status := emptyStatus },
         { w with ours := some { name := OperatorName,
                                 status := emptyStatus } })) := by
  refine ⟨?_, ?_, ?_⟩
  · intro e h
    unfold GetOrCreateClusterOperator getOwn
    rw [h]
  · intro co hge ho
    exact getOrCreate_found w co hge ho
  · intro hge ho hc
    unfold GetOrCreateClusterOperator getOwn create
    rw [hge, ho, hc]

/-- Witness for C8 at all three branches. -/
theorem GetOrCreateClusterOperator_spec_witness :
    GetOrCreateClusterOperator getErrWorld = Except.error "denied" ∧
    GetOrCreateClusterOperator syncedWorld = Except.ok (syncedCO, syncedWorld) ∧
    GetOrCreateClusterOperator baseWorld = Except.ok
      ({ name := OperatorName, status := emptyStatus },
       { baseWorld with ours := some { name := OperatorName,
                                       status := emptyStatus } }) :=
  ⟨(GetOrCreateClusterOperator_spec getErrWorld).1 "denied" rfl,
   (GetOrCreateClusterOperator_spec syncedWorld).2.1 syncedCO rfl rfl,
   (GetOrCreateClusterOperator_spec baseWorld).2.2 rfl rfl rfl⟩

/-- C9: Every synthesized status payload — whether produced via Available,
Fail, or Progressing — contains exactly three conditions, exactly one per
type Available, Progressing, Failing. -/
theorem synthesized_payload_exactly_three (ro : List ObjectReference)
    (reason message : String) :
    ((candidateStatus ro (availableCondList reason message)).conditions.length
        = 3 ∧
      ∀ t, (candidateStatus ro
        (availableCondList reason message)).conditions.countP
        (fun c => c.condType = t) = 1) ∧
    ((candidateStatus ro (failCondList reason message)).conditions.length
        = 3 ∧
      ∀ t, (candidateStatus ro
        (failCondList reason message)).conditions.countP
        (fun c => c.condType = t) = 1) ∧
    ((candidateStatus ro (progressingCondList reason message)).conditions.length
        = 3 ∧
      ∀ t, (candidateStatus ro
        (progressingCondList reason message)).conditions.countP
        (fun c => c.condType = t) = 1) := by
  refine ⟨⟨rfl, ?_⟩, ⟨rfl, ?_⟩, ⟨rfl, ?_⟩⟩ <;> intro t <;> cases t <;> rfl

/-- C10: After any successful `ApplyConditions`, the stored versions list
is exactly [{cluster-autoscaler, version.Raw}], which never equals the
desired list [{operator, version.Raw}] used inside Report; hence on a
subsequent healthy tick, `IsDifferentVersions` returns true and the
Progressing payload is synthesized instead of Available. -/
theorem applied_versions_force_progressing (ro : List ObjectReference)
    (w w2 : World) (conds : List ClusterOperatorStatusCondition)
    (h : ApplyConditions ro w conds = (none, w2)) :
    (∃ co, w2.ours = some co ∧
      co.status.versions =
        [{ name := "cluster-autoscaler", version := versionRaw }] ∧
      co.status.versions ≠ desiredVersions) ∧
    IsDifferentVersions w2 desiredVersions = Except.ok (true, w2) ∧
    (CheckMachineAPI w2 = Except.ok true →
      (pollFunc ro w2).1 = (false, none) ∧
      ((pollFunc ro w2).2).synth = w2.synth ++
        [progressingCondList ReasonSyncing
          ("Syncing to version " ++ printOperandVersions desiredVersions)]) := by
  have h' : applyStatus (candidateStatus ro conds)
      { w with synth := w.synth ++ [(candidateStatus ro conds).conditions] } =
      (none, w2) := h
  obtain ⟨⟨co, hco, hcs⟩, hge2, -, -, -, -, -, -⟩ := applyStatus_ok _ _ _ h'
  have hver : co.status.versions =
      [{ name := "cluster-autoscaler", version := versionRaw }] := by
    rw [hcs]
    rfl
  have hne : co.status.versions ≠ desiredVersions := by
    rw [hver]
    decide
  refine ⟨⟨co, hco, hver, hne⟩, ?_, ?_⟩
  · rw [isDifferentVersions_found w2 co desiredVersions hge2 hco]
    rw [decide_eq_true (Ne.symm hne)]
  · intro hm
    exact pollFunc_drift ro w2 co hm hge2 hco hne

/-- Witness for C10 at a concrete successful application. -/
theorem applied_versions_force_progressing_witness :
    IsDifferentVersions
        ((ApplyConditions [] baseWorld (failCondList "r" "m")).2)
        desiredVersions =
      Except.ok (true, (ApplyConditions [] baseWorld (failCondList "r" "m")).2) :=
  (applied_versions_force_progressing [] baseWorld
    ((ApplyConditions [] baseWorld (failCondList "r" "m")).2)
    (failCondList "r" "m") (by decide)).2.1

end StatusGo
